import Mathlib

/-!
Verification development for the Tele-Vid-Bot video archive bot.

The Python sources are shallowly embedded in Lean:

* Python strings are modelled as `List Char` (`PyStr`); `len`, `startswith`,
  `strip` and `+` become `List.length`, `startswith`, `pyStrip` and `++`.
* The SQLite store (`users`, `categories`, `videos` tables from
  `database/database.py`) is a `Store` record of row lists, with the
  `AUTOINCREMENT` counters made explicit.
* Each SQLite connection carries its per-connection `PRAGMA foreign_keys`
  flag (`Connection`), because cascade deletion of video rows depends on it.
* The in-memory conversation-state dictionaries of `auth_handler.py`,
  `category_handler.py` and `video_handler.py` and the filesystem contents
  are collected in `BotState`; handlers are functions
  `BotState → BotState × List PyStr`, the second component being the texts of
  the messages sent back to the user.  `os.remove` invocations are recorded
  in the ghost log `BotState.removeCalls`.
* `int(time.time())` is the `now : Nat` field of `BotState` (constant during
  a single event, as each handler runs to completion).
* Video decoding (`cv2.VideoCapture`) is modelled by `VideoFile`: a frame
  count plus a partial frame-read function; a decoded frame is its pixel
  dimensions (`Frame`).  Downloads are an oracle on the incoming message
  (`MediaEvt.downloaded`).  Disk-write failures of `cv2.imwrite` are not
  modelled (the write succeeds whenever a frame was decoded).
-/

/-! ## Python strings as lists of characters -/

/-- Python `str`, modelled as its sequence of code points. -/
abbrev PyStr := List Char

/-- Coerce a Lean string literal to the Python-string model. -/
def py (s : String) : PyStr := s.data

/-- Python `s.startswith(p)`. -/
def startswith : PyStr → PyStr → Bool
  | _, [] => true
  | [], _ :: _ => false
  | c :: s, q :: p => c == q && startswith s p

/-- Characters removed by Python `str.strip()` (the ASCII whitespace the
sources can receive in practice). -/
def pyIsSpace (c : Char) : Bool :=
  c == ' ' || c == '\t' || c == '\n' || c == '\r'

/-- Python `s.strip()`. -/
def pyStrip (s : PyStr) : PyStr :=
  ((s.dropWhile pyIsSpace).reverse.dropWhile pyIsSpace).reverse

/-- Lexicographic comparison on Python strings, for SQL `ORDER BY`. -/
def pyStrLe : PyStr → PyStr → Bool
  | [], _ => true
  | _ :: _, [] => false
  | a :: as, b :: bs => if a == b then pyStrLe as bs else decide (a < b)

/-- Insert into a list sorted by `le` (helper for `ORDER BY`). -/
def insertOrdered (le : α → α → Bool) (a : α) : List α → List α
  | [] => [a]
  | b :: rest => if le a b then a :: b :: rest else b :: insertOrdered le a rest

/-- Sort a list by `le` (insertion sort; models SQL `ORDER BY`). -/
def orderBy (le : α → α → Bool) : List α → List α
  | [] => []
  | a :: rest => insertOrdered le a (orderBy le rest)

/-! ## Data model: rows of the three tables (database.py, init_db) -/

/-- Row of `users(id PRIMARY KEY, username, access_until)`. -/
structure UserRow where
  id : Nat
  username : PyStr
  access_until : Nat
deriving Repr, DecidableEq

/-- Row of `categories(id PRIMARY KEY AUTOINCREMENT, name UNIQUE)`. -/
structure CategoryRow where
  id : Nat
  name : PyStr
deriving Repr, DecidableEq

/-- Row of `videos(id PRIMARY KEY AUTOINCREMENT, title, type, path_or_url,
category_id REFERENCES categories ON DELETE CASCADE, thumbnail_path)`.
The SQL column `type` (value `"file"` or `"link"`) is field `vtype`
(`type` is reserved in Lean). -/
structure VideoRow where
  id : Nat
  title : PyStr
  vtype : PyStr
  path_or_url : PyStr
  category_id : Nat
  thumbnail_path : Option PyStr
deriving Repr, DecidableEq

/-- The persistent store: the three tables plus the AUTOINCREMENT counters
(`AUTOINCREMENT` row ids start at 1 and never repeat). -/
structure Store where
  users : List UserRow
  categories : List CategoryRow
  videos : List VideoRow
  nextCategoryId : Nat
  nextVideoId : Nat
deriving Repr, DecidableEq

/-- The empty store produced by `init_db` on a fresh database file. -/
def emptyStore : Store :=
  { users := [], categories := [], videos := [], nextCategoryId := 1, nextVideoId := 1 }

/-! ## SQLite connections (database.py, get_connection) -/

/-- A SQLite connection state: its per-connection `PRAGMA foreign_keys` flag,
which controls whether `ON DELETE CASCADE` clauses are enforced. -/
structure Connection where
  foreign_keys : Bool
deriving Repr, DecidableEq

/-- Source: `get_connection` opens a fresh connection with
`sqlite3.connect(config.DB_PATH)` and sets only `row_factory`.  A fresh SQLite
connection starts with `PRAGMA foreign_keys = OFF` (the SQLite default);
`init_db` issues `PRAGMA foreign_keys = ON`, but on its own connection, which
is closed when `init_db` returns, so the connections used by every later
database operation never have foreign-key enforcement enabled. -/
def get_connection : Connection := { foreign_keys := false }

/-! ## Database operations (database.py) -/

/-- Source: `get_user` — `SELECT * FROM users WHERE id = ?`, `fetchone()`. -/
def get_user (db : Store) (user_id : Nat) : Option UserRow :=
  db.users.find? (fun u => u.id == user_id)

/-- Source: `save_user_access` — `access_until = int(time.time()) + expires_in`
followed by `INSERT OR REPLACE INTO users (id, username, access_until)`. -/
def save_user_access (db : Store) (now : Nat) (user_id : Nat) (username : PyStr)
    (expires_in : Nat) : Store :=
  let access_until := now + expires_in
  { db with users :=
      { id := user_id, username := username, access_until := access_until } ::
        db.users.filter (fun u => u.id != user_id) }

/-- Source: `check_user_access` — fetch the user; no row means no access,
otherwise access iff `user["access_until"] > current_time`. -/
def check_user_access (db : Store) (now : Nat) (user_id : Nat) : Bool :=
  match get_user db user_id with
  | none => false
  | some user => decide (now < user.access_until)

/-- Source: `get_all_categories` — `SELECT * FROM categories ORDER BY name`. -/
def get_all_categories (db : Store) : List CategoryRow :=
  orderBy (fun a b => pyStrLe a.name b.name) db.categories

/-- Source: `add_category` — `INSERT INTO categories (name) VALUES (?)`;
the `UNIQUE` constraint on `name` makes the insert raise `sqlite3.Error`
(caught, returning `None`) when the name already exists; on success the
new `lastrowid` is returned. -/
def add_category (db : Store) (name : PyStr) : Option Nat × Store :=
  if db.categories.any (fun c => c.name == name) then (none, db)
  else
    (some db.nextCategoryId,
      { db with
          categories := db.categories ++ [{ id := db.nextCategoryId, name := name }],
          nextCategoryId := db.nextCategoryId + 1 })

/-- Effect of `DELETE FROM categories WHERE id = ?` on a given connection.
The `videos` table declares `ON DELETE CASCADE` on `category_id`, but SQLite
enforces it only when the executing connection has `foreign_keys` enabled. -/
def sqlDeleteCategory (conn : Connection) (db : Store) (category_id : Nat) : Store :=
  { db with
      categories := db.categories.filter (fun c => c.id != category_id),
      videos :=
        if conn.foreign_keys then db.videos.filter (fun v => v.category_id != category_id)
        else db.videos }

/-- Source: `delete_category` — on a fresh `get_connection` connection,
`SELECT * FROM videos WHERE category_id = ?` (snapshot returned to the caller
for file deletion), then `DELETE FROM categories WHERE id = ?`, commit. -/
def delete_category (db : Store) (category_id : Nat) : List VideoRow × Store :=
  let conn := get_connection
  let videos := db.videos.filter (fun v => v.category_id == category_id)
  (videos, sqlDeleteCategory conn db category_id)

/-- Source: `add_video` — `INSERT INTO videos (title, type, path_or_url,
category_id, thumbnail_path)`.  `title`, `type` and `path_or_url` are
`NOT NULL`: passing `None` raises `sqlite3.Error` (caught, returning `None`).
With foreign keys off on the connection, `category_id` is not checked. -/
def add_video (db : Store) (title vtype path_or_url : Option PyStr)
    (category_id : Nat) (thumbnail_path : Option PyStr) : Option Nat × Store :=
  match title, vtype, path_or_url with
  | some t, some ty, some p =>
    (some db.nextVideoId,
      { db with
          videos := db.videos ++
            [{ id := db.nextVideoId, title := t, vtype := ty, path_or_url := p,
               category_id := category_id, thumbnail_path := thumbnail_path }],
          nextVideoId := db.nextVideoId + 1 })
  | _, _, _ => (none, db)

/-- Source: `get_videos_by_category` —
`SELECT * FROM videos WHERE category_id = ? ORDER BY title`. -/
def get_videos_by_category (db : Store) (category_id : Nat) : List VideoRow :=
  orderBy (fun a b => pyStrLe a.title b.title)
    (db.videos.filter (fun v => v.category_id == category_id))

/-- Source: `get_video` — `SELECT * FROM videos WHERE id = ?`, `fetchone()`. -/
def get_video (db : Store) (video_id : Nat) : Option VideoRow :=
  db.videos.find? (fun v => v.id == video_id)

/-- Source: `delete_video` — select the row (returned for file deletion),
then `DELETE FROM videos WHERE id = ?`. -/
def delete_video (db : Store) (video_id : Nat) : Option VideoRow × Store :=
  let video := db.videos.find? (fun v => v.id == video_id)
  (video, { db with videos := db.videos.filter (fun v => v.id != video_id) })

/-! ## Media utilities (utils/media_utils.py) -/

/-- Storage directory for video binaries (config.py, `VIDEO_DIR`). -/
def VIDEO_DIR : PyStr := py "DATA/videos"

/-- Storage directory for thumbnails (config.py, `THUMBNAIL_DIR`). -/
def THUMBNAIL_DIR : PyStr := py "DATA/thumbnails"

/-- A decoded video frame, reduced to the only data the code inspects:
its pixel dimensions (`image.shape[:2]`). -/
structure Frame where
  height : Nat
  width : Nat
deriving Repr, DecidableEq

/-- A video file as seen through `cv2.VideoCapture`: whether it opens, its
`CAP_PROP_FRAME_COUNT`, and a partial frame-decode function (`none` models a
failing `vidcap.read()` at that position). -/
structure VideoFile where
  isOpened : Bool
  total_frames : Nat
  readFrame : Nat → Option Frame

/-- A thumbnail image written to disk: its path and pixel dimensions. -/
structure Thumbnail where
  path : PyStr
  height : Nat
  width : Nat
deriving Repr, DecidableEq

/-- Source: `generate_thumbnail` (the inner `_generate`, whose result the
async wrapper returns unchanged).  `video_basename` is
`os.path.basename(video_path)`; the thumbnail file name is
`f"{basename}.jpg"` under `THUMBNAIL_DIR`.  Steps: open with OpenCV, fail if
not opened; read `CAP_PROP_FRAME_COUNT`, fail if zero; seek to
`middle_frame = total_frames // 2` and read, fail if the read fails; resize
keeping aspect ratio with `max_dim = 320` (`int(...)` truncation is `Nat`
division; Python raises `ZeroDivisionError` — caught, yielding `None` — when
`width == 0` in the `else` branch); write the image. -/
def generate_thumbnail (vf : VideoFile) (video_basename : PyStr) : Option Thumbnail :=
  let thumbnail_path := THUMBNAIL_DIR ++ py "/" ++ video_basename ++ py ".jpg"
  if !vf.isOpened then none
  else if vf.total_frames == 0 then none
  else
    let middle_frame := vf.total_frames / 2
    match vf.readFrame middle_frame with
    | none => none
    | some image =>
      let max_dim := 320
      if image.height > image.width then
        some { path := thumbnail_path, height := max_dim,
               width := max_dim * image.width / image.height }
      else if image.width == 0 then none
      else
        some { path := thumbnail_path, height := max_dim * image.height / image.width,
               width := max_dim }

/-- The `document` attribute of an incoming Telegram media object: the code
only reads its `mime_type`. -/
structure Document where
  mime_type : PyStr
deriving Repr, DecidableEq

/-- The `webpage` attribute of a link-preview media object (`url` is `none`
when the attribute is missing or falsy). -/
structure Webpage where
  url : Option PyStr
deriving Repr, DecidableEq

/-- An incoming `message.media` object, duck-typed in the source by attribute
presence: an optional `webpage` (link preview), an optional `document`
(uploaded file), and the download oracle: what `client.download_media` would
produce for it (`none` models a failed download, `some vf` a file on disk
that OpenCV sees as `vf`). -/
structure MediaEvt where
  webpage : Option Webpage
  document : Option Document
  downloaded : Option VideoFile

/-- An inbound message event: sender identity, text and optional media. -/
structure MessageEvent where
  sender_id : Nat
  username : PyStr
  text : PyStr
  media : Option MediaEvt

/-- Source: `save_video_file` — generate a fresh `f"{uuid4().hex}.mp4"` name
(passed in as `video_filename`, uuid collisions not modelled), require
`message.media.document` to exist with a `mime_type` starting with
`"video/"`, download to `VIDEO_DIR/video_filename` (failure gives
`(None, None)`), then generate a thumbnail from the downloaded file; returns
the downloaded path together with the thumbnail path, which is `None`
whenever thumbnail generation failed. -/
def save_video_file (message : MessageEvent) (video_filename : PyStr) :
    Option (PyStr × Option PyStr) :=
  let video_path := VIDEO_DIR ++ py "/" ++ video_filename
  match message.media with
  | none => none
  | some media =>
    match media.document with
    | none => none
    | some document =>
      if startswith document.mime_type (py "video/") then
        match media.downloaded with
        | none => none
        | some vf =>
          let thumbnail_path := (generate_thumbnail vf video_filename).map Thumbnail.path
          some (video_path, thumbnail_path)
      else none

/-- Source: `is_valid_url` — prepend `"https://"` when the input starts with
neither `"http://"` nor `"https://"`, then reject only when the resulting
length is below 5. -/
def is_valid_url (url : PyStr) : Bool :=
  let url :=
    if startswith url (py "http://") || startswith url (py "https://") then url
    else py "https://" ++ url
  if url.length < 5 then false else true

/-! ## Configuration (config.py) -/

/-- The configuration surface the handlers read (config.py).  `ACCESS_TIMEOUT`
is fixed at 3600 seconds in the source. -/
structure Config where
  ADMIN_ID : Nat
  ACCESS_PASSWORD : PyStr
  ACCESS_TIMEOUT : Nat := 3600
deriving Repr, DecidableEq

/-! ## Conversation states (the per-module `user_states` dictionaries) -/

/-- States of category_handler.py: `STATE_WAITING_CATEGORY_NAME` (context `{}`)
and `STATE_CONFIRM_DELETE` (context `{category_id}`). -/
inductive CatState where
  | waitingCategoryName
  | confirmDeleteCategory (category_id : Nat)
deriving Repr, DecidableEq

/-- States of video_handler.py with their accumulated context dictionaries:
`STATE_WAITING_TITLE` (`{}`), `STATE_WAITING_VIDEO` (`{title}`),
`STATE_WAITING_CATEGORY` (`{title, type, path_or_url}`, plus
`thumbnail_path` for file uploads) and `STATE_CONFIRM_DELETE`
(`{video_id}`).  The transient `category_id` key written by
`on_category_selected` just before it reads the context back is not a field:
no later read observes it. -/
inductive VidState where
  | waitingTitle
  | waitingVideo (title : PyStr)
  | waitingCategory (title : PyStr) (vtype : PyStr) (path_or_url : PyStr)
      (thumbnail_path : Option PyStr)
  | confirmDeleteVideo (video_id : Nat)
deriving Repr, DecidableEq

/-- Lookup in a `user_states` dictionary keyed by user id. -/
def lookupState (m : List (Nat × α)) (user_id : Nat) : Option α :=
  (m.find? (fun p => p.1 == user_id)).map (fun p => p.2)

/-- Python `user_states[user_id] = s`. -/
def setState (m : List (Nat × α)) (user_id : Nat) (s : α) : List (Nat × α) :=
  (user_id, s) :: m.filter (fun p => p.1 != user_id)

/-- Python `del user_states[user_id]` (a no-op when the key is absent, used
only where the source guards with `if user_id in user_states`). -/
def delState (m : List (Nat × α)) (user_id : Nat) : List (Nat × α) :=
  m.filter (fun p => p.1 != user_id)

/-- The whole mutable world of one bot process: the store, the filesystem
(the set of existing paths), a ghost log of `os.remove` invocations, the
three per-module `user_states` dictionaries, and the current time. -/
structure BotState where
  db : Store
  files : List PyStr
  removeCalls : List PyStr
  authStates : List Nat
  catStates : List (Nat × CatState)
  vidStates : List (Nat × VidState)
  now : Nat
deriving Repr, DecidableEq

/-- Source: `delete_video_files` (media_utils.py) — a no-op returning `True`
when `video["type"] != "file"`; otherwise `os.remove` the video file when it
exists and the thumbnail when recorded and existing, logging (not failing)
missing files, and return `True`. -/
def delete_video_files (st : BotState) (video : VideoRow) : BotState × Bool :=
  if video.vtype != py "file" then (st, true)
  else
    let st :=
      if st.files.contains video.path_or_url then
        { st with files := st.files.filter (fun f => f != video.path_or_url),
                  removeCalls := st.removeCalls ++ [video.path_or_url] }
      else st
    let st :=
      match video.thumbnail_path with
      | some tp =>
        if st.files.contains tp then
          { st with files := st.files.filter (fun f => f != tp),
                    removeCalls := st.removeCalls ++ [tp] }
        else st
      | none => st
    (st, true)

/-- The loop `for video in videos: delete_video_files(video)` of
`on_confirm_delete` (category_handler.py). -/
def deleteVideoFilesAll (st : BotState) : List VideoRow → BotState
  | [] => st
  | v :: rest => deleteVideoFilesAll (delete_video_files st v).1 rest

/-! ## Access control (handlers/auth_handler.py) -/

/-- Source: `check_access` — the admin is always allowed; anyone else needs
`check_user_access`. -/
def check_access (cfg : Config) (db : Store) (now : Nat) (user_id : Nat) : Bool :=
  if user_id == cfg.ADMIN_ID then true
  else check_user_access db now user_id

/-- Reply sent by every callback handler when `check_access` fails. -/
def accessExpiredMsg : PyStr := py "Access expired. Please restart the bot with /start."

/-- Reply of `show_main_menu`. -/
def mainMenuMsg : PyStr := py "Main Menu"

/-- Source: `start_handler` — on `/start`: the admin is granted a ~100-year
access and shown the main menu; a user with valid temporary access is shown
the main menu; anyone else is prompted for the password and put into
`STATE_WAITING_PASSWORD`. -/
def start_handler (cfg : Config) (st : BotState) (user_id : Nat) (username : PyStr) :
    BotState × List PyStr :=
  if user_id == cfg.ADMIN_ID then
    ({ st with db := save_user_access st.db st.now user_id username (100 * 365 * 24 * 3600) },
      [mainMenuMsg])
  else if check_user_access st.db st.now user_id then (st, [mainMenuMsg])
  else
    ({ st with authStates :=
        if st.authStates.contains user_id then st.authStates
        else st.authStates ++ [user_id] },
      [py "Welcome to the Video Archive Bot! Please enter the access password to continue."])

/-- Source: `message_handler` (auth_handler.py) — ignore commands (text
starting with `/`) and the admin; for a user in `STATE_WAITING_PASSWORD`,
compare the text with `config.ACCESS_PASSWORD`: on a match, save access for
the default `ACCESS_TIMEOUT`, clear the state and show the main menu; on a
mismatch, reply with an error and keep the state. -/
def message_handler (cfg : Config) (st : BotState) (user_id : Nat) (username : PyStr)
    (text : PyStr) : BotState × List PyStr :=
  if startswith text (py "/") || user_id == cfg.ADMIN_ID then (st, [])
  else if st.authStates.contains user_id then
    if text == cfg.ACCESS_PASSWORD then
      ({ st with db := save_user_access st.db st.now user_id username cfg.ACCESS_TIMEOUT,
                 authStates := st.authStates.filter (fun u => u != user_id) },
        [py "Password correct! You now have access for 1 hour.", mainMenuMsg])
    else (st, [py "Incorrect password. Please try again or contact the administrator."])
  else (st, [])

/-! ## Category handlers (handlers/category_handler.py) -/

/-- Source: `on_manage_categories` — guard with `check_access`, then render
the category-management menu. -/
def on_manage_categories (cfg : Config) (st : BotState) (user_id : Nat) :
    BotState × List PyStr :=
  if !check_access cfg st.db st.now user_id then (st, [accessExpiredMsg])
  else (st, [py "Manage Categories"])

/-- Source: `on_category_add` — guard, set `STATE_WAITING_CATEGORY_NAME`,
prompt for the name. -/
def on_category_add (cfg : Config) (st : BotState) (user_id : Nat) :
    BotState × List PyStr :=
  if !check_access cfg st.db st.now user_id then (st, [accessExpiredMsg])
  else
    ({ st with catStates := setState st.catStates user_id CatState.waitingCategoryName },
      [py "Add Category"])

/-- Source: `on_category_delete` — guard, list categories (or report that
there are none). -/
def on_category_delete (cfg : Config) (st : BotState) (user_id : Nat) :
    BotState × List PyStr :=
  if !check_access cfg st.db st.now user_id then (st, [accessExpiredMsg])
  else
    let categories := get_all_categories st.db
    if categories.isEmpty then (st, [py "No categories found"])
    else (st, [py "Delete Category"])

/-- Source: `on_delete_category_selected` (`delete_cat_N`) — guard, store the
category id in `STATE_CONFIRM_DELETE`, ask for confirmation. -/
def on_delete_category_selected (cfg : Config) (st : BotState) (user_id : Nat)
    (category_id : Nat) : BotState × List PyStr :=
  if !check_access cfg st.db st.now user_id then (st, [accessExpiredMsg])
  else
    ({ st with catStates :=
        setState st.catStates user_id (CatState.confirmDeleteCategory category_id) },
      [py "Confirm Deletion"])

/-- Source: `on_confirm_delete` (`confirm_delete_N`) — guard, call
`database.delete_category`, then `delete_video_files` on each returned video
row, then report success. -/
def on_confirm_delete (cfg : Config) (st : BotState) (user_id : Nat)
    (category_id : Nat) : BotState × List PyStr :=
  if !check_access cfg st.db st.now user_id then (st, [accessExpiredMsg])
  else
    let (videos, db) := delete_category st.db category_id
    let st := { st with db := db }
    let st := deleteVideoFilesAll st videos
    (st, [py "Category Deleted"])

/-- Source: `on_back_to_categories` — guard, clear this module's state for
the user, re-render the category-management menu. -/
def on_back_to_categories (cfg : Config) (st : BotState) (user_id : Nat) :
    BotState × List PyStr :=
  if !check_access cfg st.db st.now user_id then (st, [accessExpiredMsg])
  else
    ({ st with catStates := delState st.catStates user_id }, [py "Manage Categories"])

/-- Source: `on_back_to_main` — guard, clear this module's state for the
user, show the main menu. -/
def on_back_to_main (cfg : Config) (st : BotState) (user_id : Nat) :
    BotState × List PyStr :=
  if !check_access cfg st.db st.now user_id then (st, [accessExpiredMsg])
  else ({ st with catStates := delState st.catStates user_id }, [mainMenuMsg])

/-- Source: `on_message` (category_handler.py) — note the absence of any
`check_access` call: the handler only requires `user_id in user_states`.
In `STATE_WAITING_CATEGORY_NAME`, reject an empty stripped name, otherwise
`database.add_category`; on success clear the state. -/
def category_on_message (st : BotState) (user_id : Nat) (text : PyStr) :
    BotState × List PyStr :=
  match lookupState st.catStates user_id with
  | none => (st, [])
  | some CatState.waitingCategoryName =>
    let category_name := pyStrip text
    if category_name.isEmpty then (st, [py "Invalid Name: Category name cannot be empty."])
    else
      match add_category st.db category_name with
      | (some _, db) =>
        ({ st with db := db, catStates := delState st.catStates user_id },
          [py "Category Added"])
      | (none, db) =>
        ({ st with db := db }, [py "Failed to add category. It might already exist."])
  | some (CatState.confirmDeleteCategory _) => (st, [])

/-- Source: `show_categories_menu` — list all categories for browsing, or
report that there are none. -/
def show_categories_menu (st : BotState) : BotState × List PyStr :=
  let categories := get_all_categories st.db
  if categories.isEmpty then (st, [py "No Categories"])
  else (st, [py "Categories"])

/-! ## Video handlers (handlers/video_handler.py) -/

/-- Source: `on_manage_videos` — guard, render the video-management menu. -/
def on_manage_videos (cfg : Config) (st : BotState) (user_id : Nat) :
    BotState × List PyStr :=
  if !check_access cfg st.db st.now user_id then (st, [accessExpiredMsg])
  else (st, [py "Manage Videos"])

/-- Source: `on_video_add` — guard, set `STATE_WAITING_TITLE`, prompt. -/
def on_video_add (cfg : Config) (st : BotState) (user_id : Nat) :
    BotState × List PyStr :=
  if !check_access cfg st.db st.now user_id then (st, [accessExpiredMsg])
  else
    ({ st with vidStates := setState st.vidStates user_id VidState.waitingTitle },
      [py "Add Video"])

/-- Source: `on_video_delete` — guard, list categories (or report none). -/
def on_video_delete (cfg : Config) (st : BotState) (user_id : Nat) :
    BotState × List PyStr :=
  if !check_access cfg st.db st.now user_id then (st, [accessExpiredMsg])
  else
    let categories := get_all_categories st.db
    if categories.isEmpty then (st, [py "No categories found"])
    else (st, [py "Delete Video: select a category"])

/-- Source: `on_delete_video_category_selected` (`delete_video_cat_N`) —
guard, list the videos of the category (or report none). -/
def on_delete_video_category_selected (cfg : Config) (st : BotState) (user_id : Nat)
    (category_id : Nat) : BotState × List PyStr :=
  if !check_access cfg st.db st.now user_id then (st, [accessExpiredMsg])
  else
    let videos := get_videos_by_category st.db category_id
    if videos.isEmpty then (st, [py "No videos found"])
    else (st, [py "Delete Video: select a video"])

/-- Source: `on_delete_video_selected` (`delete_video_N`) — guard, fetch the
video (absent row gives a friendly error), store the id in
`STATE_CONFIRM_DELETE`, ask for confirmation. -/
def on_delete_video_selected (cfg : Config) (st : BotState) (user_id : Nat)
    (video_id : Nat) : BotState × List PyStr :=
  if !check_access cfg st.db st.now user_id then (st, [accessExpiredMsg])
  else
    match get_video st.db video_id with
    | none => (st, [py "Video not found. It might have been deleted already."])
    | some _ =>
      ({ st with vidStates :=
          setState st.vidStates user_id (VidState.confirmDeleteVideo video_id) },
        [py "Confirm Deletion"])

/-- Source: `on_confirm_delete_video` (`confirm_delete_video_N`) — guard,
`database.delete_video`, and when a row was deleted, `delete_video_files`
on it and report success, otherwise report failure. -/
def on_confirm_delete_video (cfg : Config) (st : BotState) (user_id : Nat)
    (video_id : Nat) : BotState × List PyStr :=
  if !check_access cfg st.db st.now user_id then (st, [accessExpiredMsg])
  else
    let (video, db) := delete_video st.db video_id
    let st := { st with db := db }
    match video with
    | some v => ((delete_video_files st v).1, [py "Video Deleted"])
    | none => (st, [py "Failed to delete video. It might have been deleted already."])

/-- Source: `on_back_to_videos` — guard, clear this module's state for the
user, re-render the video-management menu. -/
def on_back_to_videos (cfg : Config) (st : BotState) (user_id : Nat) :
    BotState × List PyStr :=
  if !check_access cfg st.db st.now user_id then (st, [accessExpiredMsg])
  else ({ st with vidStates := delState st.vidStates user_id }, [py "Manage Videos"])

/-- The `context.get` reads of `on_category_selected`: the keys present in
the context dictionary of each video-flow state (`None` when missing). -/
def vidContextFields : VidState →
    Option PyStr × Option PyStr × Option PyStr × Option PyStr
  | VidState.waitingTitle => (none, none, none, none)
  | VidState.waitingVideo title => (some title, none, none, none)
  | VidState.waitingCategory title vtype path_or_url thumbnail_path =>
    (some title, some vtype, some path_or_url, thumbnail_path)
  | VidState.confirmDeleteVideo _ => (none, none, none, none)

/-- Source: `on_category_selected` (`select_category_N`) — guard; a user with
no pending video-flow state gets a session-expired error; otherwise
`database.add_video` with the context's `title`, `type`, `path_or_url`,
`thumbnail_path` (each possibly `None`) and the selected category; on
success clear the state, otherwise report failure keeping the state. -/
def on_category_selected (cfg : Config) (st : BotState) (user_id : Nat)
    (category_id : Nat) : BotState × List PyStr :=
  if !check_access cfg st.db st.now user_id then (st, [accessExpiredMsg])
  else
    match lookupState st.vidStates user_id with
    | none => (st, [py "Session expired. Please start over."])
    | some vstate =>
      let (title, vtype, path_or_url, thumbnail_path) := vidContextFields vstate
      match add_video st.db title vtype path_or_url category_id thumbnail_path with
      | (some _, db) =>
        ({ st with db := db, vidStates := delState st.vidStates user_id },
          [py "Video Added"])
      | (none, db) =>
        ({ st with db := db }, [py "Failed to add video to the database."])

/-- Source: `on_categories_menu` (`menu_categories`) — guard, then
`show_categories_menu`. -/
def on_categories_menu (cfg : Config) (st : BotState) (user_id : Nat) :
    BotState × List PyStr :=
  if !check_access cfg st.db st.now user_id then (st, [accessExpiredMsg])
  else show_categories_menu st

/-- Source: `on_browse_category` (`browse_cat_N`) — guard, then send every
video of the category (read-only: one message per video plus a completion
message), or report an empty category. -/
def on_browse_category (cfg : Config) (st : BotState) (user_id : Nat)
    (category_id : Nat) : BotState × List PyStr :=
  if !check_access cfg st.db st.now user_id then (st, [accessExpiredMsg])
  else
    let videos := get_videos_by_category st.db category_id
    if videos.isEmpty then (st, [py "There are no videos in this category."])
    else
      (st, py "Sending videos in this category..." ::
        videos.map (fun v => v.title) ++
          [py "All videos in this category have been sent."])

/-- Source: `on_play_video` (`play_video_N`) — guard, fetch the video; a
missing row, a link-kind row and a missing file each give a notice; a
file-kind row with its file on disk is sent. -/
def on_play_video (cfg : Config) (st : BotState) (user_id : Nat)
    (video_id : Nat) : BotState × List PyStr :=
  if !check_access cfg st.db st.now user_id then (st, [accessExpiredMsg])
  else
    match get_video st.db video_id with
    | none => (st, [py "Video not found. It might have been deleted."])
    | some video =>
      if video.vtype != py "file" then (st, [py "This is a link, not a file."])
      else if st.files.contains video.path_or_url then
        (st, [py "Sending video...", video.title])
      else (st, [py "Video file not found on the server."])

/-- Source: `show_category_selection` — list all categories as selection
buttons for the pending video; with no categories, clear the video-flow
state and tell the user to add a category first. -/
def show_category_selection (st : BotState) (user_id : Nat) : BotState × List PyStr :=
  let categories := get_all_categories st.db
  if categories.isEmpty then
    ({ st with vidStates := delState st.vidStates user_id },
      [py "No categories found. Please add a category first."])
  else (st, [py "Select Category"])

/-- Source: `on_message` (video_handler.py) — note the absence of any
`check_access` call: the handler only requires `user_id in user_states`.
`STATE_WAITING_TITLE`: reject an empty stripped title, otherwise record it
and move to `STATE_WAITING_VIDEO`.  `STATE_WAITING_VIDEO`: a plain text
message is treated as a URL (`is_valid_url`), a link-preview media
(`webpage` attribute) yields a URL from the text or the preview, a
`document` media with `video/` MIME type is downloaded via
`save_video_file` (preceded by a progress message), anything else is
rejected; every accepted input moves to `STATE_WAITING_CATEGORY` and shows
the category selection.  Other states are not handled by this function.
`fresh_filename` is the `f"{uuid4().hex}.mp4"` name `save_video_file` would
generate. -/
def video_on_message (st : BotState) (ev : MessageEvent) (fresh_filename : PyStr) :
    BotState × List PyStr :=
  let user_id := ev.sender_id
  match lookupState st.vidStates user_id with
  | none => (st, [])
  | some VidState.waitingTitle =>
    let title := pyStrip ev.text
    if title.isEmpty then (st, [py "Invalid Title: Title cannot be empty."])
    else
      ({ st with vidStates := setState st.vidStates user_id (VidState.waitingVideo title) },
        [py "Video Upload: send a video file or a video link."])
  | some (VidState.waitingVideo title) =>
    match ev.media with
    | none =>
      if !ev.text.isEmpty then
        let url := pyStrip ev.text
        if !is_valid_url url then (st, [py "Invalid URL"])
        else
          let s := setState st.vidStates user_id
            (VidState.waitingCategory title (py "link") url none)
          show_category_selection { st with vidStates := s } user_id
      else (st, [py "Invalid Input: send either a video file or a video link."])
    | some media =>
      match media.webpage with
      | some webpage =>
        if !ev.text.isEmpty && is_valid_url (pyStrip ev.text) then
          let url := pyStrip ev.text
          let s := setState st.vidStates user_id
            (VidState.waitingCategory title (py "link") url none)
          show_category_selection { st with vidStates := s } user_id
        else
          match webpage.url with
          | some url =>
            if !url.isEmpty then
              let s := setState st.vidStates user_id
                (VidState.waitingCategory title (py "link") url none)
              show_category_selection { st with vidStates := s } user_id
            else (st, [py "Invalid Link: could not extract a valid URL."])
          | none => (st, [py "Invalid Link: could not extract a valid URL."])
      | none =>
        match media.document with
        | some document =>
          if startswith document.mime_type (py "video/") then
            match save_video_file ev fresh_filename with
            | none =>
              (st, [py "Downloading video... Please wait.",
                py "Error Saving File: failed to save video file."])
            | some (video_path, thumbnail_path) =>
              let s := setState st.vidStates user_id
                (VidState.waitingCategory title (py "file") video_path thumbnail_path)
              let (st, replies) := show_category_selection { st with vidStates := s } user_id
              (st, py "Downloading video... Please wait." :: replies)
          else (st, [py "Invalid File: please send a valid video file."])
        | none => (st, [py "Link Processing Issue: paste the URL directly."])
  | some (VidState.waitingCategory _ _ _ _) => (st, [])
  | some (VidState.confirmDeleteVideo _) => (st, [])

/-! ## Event dispatch (main.py, handlers/__init__.py, telethon) -/

/-- The button-click action tokens the source registers `CallbackQuery`
handlers for; the regex patterns are mutually exclusive on the data strings
the source emits, so each token is dispatched to exactly one handler. -/
inductive CallbackEvent where
  | menu_manage_categories
  | category_add
  | category_delete
  | delete_cat (category_id : Nat)
  | confirm_delete (category_id : Nat)
  | back_to_categories
  | back_to_main
  | menu_manage_videos
  | video_add
  | video_delete
  | delete_video_cat (category_id : Nat)
  | delete_video_sel (video_id : Nat)
  | confirm_delete_video (video_id : Nat)
  | back_to_videos
  | select_category (category_id : Nat)
  | menu_categories
  | browse_cat (category_id : Nat)
  | play_video (video_id : Nat)
deriving Repr, DecidableEq

/-- Dispatch of one button-click event to its registered handler. -/
def handleCallback (cfg : Config) (st : BotState) (user_id : Nat)
    (ev : CallbackEvent) : BotState × List PyStr :=
  match ev with
  | CallbackEvent.menu_manage_categories => on_manage_categories cfg st user_id
  | CallbackEvent.category_add => on_category_add cfg st user_id
  | CallbackEvent.category_delete => on_category_delete cfg st user_id
  | CallbackEvent.delete_cat cid => on_delete_category_selected cfg st user_id cid
  | CallbackEvent.confirm_delete cid => on_confirm_delete cfg st user_id cid
  | CallbackEvent.back_to_categories => on_back_to_categories cfg st user_id
  | CallbackEvent.back_to_main => on_back_to_main cfg st user_id
  | CallbackEvent.menu_manage_videos => on_manage_videos cfg st user_id
  | CallbackEvent.video_add => on_video_add cfg st user_id
  | CallbackEvent.video_delete => on_video_delete cfg st user_id
  | CallbackEvent.delete_video_cat cid => on_delete_video_category_selected cfg st user_id cid
  | CallbackEvent.delete_video_sel vid => on_delete_video_selected cfg st user_id vid
  | CallbackEvent.confirm_delete_video vid => on_confirm_delete_video cfg st user_id vid
  | CallbackEvent.back_to_videos => on_back_to_videos cfg st user_id
  | CallbackEvent.select_category cid => on_category_selected cfg st user_id cid
  | CallbackEvent.menu_categories => on_categories_menu cfg st user_id
  | CallbackEvent.browse_cat cid => on_browse_category cfg st user_id cid
  | CallbackEvent.play_video vid => on_play_video cfg st user_id vid

/-- Dispatch of one inbound message.  Telethon runs every matching
`NewMessage` handler in registration order (handlers/__init__.py registers
auth, then category, then video; none stops propagation): `start_handler`
(whose pattern `/start` is matched with `re.match`, hence any text starting
with it), the auth `message_handler`, the category `on_message` and the
video `on_message`. -/
def handleMessage (cfg : Config) (st : BotState) (ev : MessageEvent)
    (fresh_filename : PyStr) : BotState × List PyStr :=
  let (st, r0) :=
    if startswith ev.text (py "/start") then start_handler cfg st ev.sender_id ev.username
    else (st, [])
  let (st, r1) := message_handler cfg st ev.sender_id ev.username ev.text
  let (st, r2) := category_on_message st ev.sender_id ev.text
  let (st, r3) := video_on_message st ev fresh_filename
  (st, r0 ++ r1 ++ r2 ++ r3)

/-! ## Concrete instances used by evaluations and witnesses -/

/-- A configuration with admin id 1 and password `secret`. -/
def exCfg : Config := { ADMIN_ID := 1, ACCESS_PASSWORD := py "secret" }

/-- A configuration whose password starts with the command character. -/
def exSlashCfg : Config := { ADMIN_ID := 1, ACCESS_PASSWORD := py "/secret" }

/-- A store with one category (id 1) owning one file-kind video (with its
file and thumbnail on disk) and one link-kind video. -/
def exStore : Store :=
  { users := [],
    categories := [{ id := 1, name := py "Movies" }],
    videos :=
      [{ id := 1, title := py "Clip", vtype := py "file",
         path_or_url := py "DATA/videos/a.mp4", category_id := 1,
         thumbnail_path := some (py "DATA/thumbnails/a.mp4.jpg") },
       { id := 2, title := py "Ext", vtype := py "link",
         path_or_url := py "https://example.com/v", category_id := 1,
         thumbnail_path := none }],
    nextCategoryId := 2, nextVideoId := 3 }

/-- Bot state over `exStore` with both files of the file-kind video on disk. -/
def exBot : BotState :=
  { db := exStore,
    files := [py "DATA/videos/a.mp4", py "DATA/thumbnails/a.mp4.jpg"],
    removeCalls := [], authStates := [], catStates := [], vidStates := [], now := 1000 }

/-- Bot state where the non-admin user 2 has no stored access record but a
pending category-name conversation state. -/
def exStaleBot : BotState :=
  { db := emptyStore, files := [], removeCalls := [], authStates := [],
    catStates := [(2, CatState.waitingCategoryName)], vidStates := [], now := 1000 }

/-- A plain text message from user 2. -/
def exMsg : MessageEvent :=
  { sender_id := 2, username := py "mallory", text := py "Movies", media := none }

/-- Bot state where the non-admin user 2 is awaiting the password. -/
def exAuthBot : BotState :=
  { db := emptyStore, files := [], removeCalls := [], authStates := [2],
    catStates := [], vidStates := [], now := 1000 }

/-- A video file with 11 frames whose middle frame (index 5) decodes to a
640 wide by 240 high image. -/
def exVf : VideoFile :=
  { isOpened := true, total_frames := 11,
    readFrame := fun n => if n == 5 then some { height := 240, width := 640 } else none }

/-- The decoded middle frame of `exVf`. -/
def exFrame : Frame := { height := 240, width := 640 }

/-- A video file that opens but has zero frames. -/
def exEmptyVf : VideoFile :=
  { isOpened := true, total_frames := 0, readFrame := fun _ => none }

/-- A document attachment declaring a video MIME type. -/
def exMp4Doc : Document := { mime_type := py "video/mp4" }

/-- A media object carrying `exMp4Doc` whose download yields `exEmptyVf`. -/
def exUploadMedia : MediaEvt :=
  { webpage := none, document := some exMp4Doc, downloaded := some exEmptyVf }

/-- A message carrying `exUploadMedia`. -/
def exUploadEv : MessageEvent :=
  { sender_id := 2, username := py "u", text := py "", media := some exUploadMedia }

/-! ## Helper lemmas -/

/-- A successful `startswith` bounds the length from below. -/
theorem startswith_length_le : ∀ (s p : PyStr), startswith s p = true → p.length ≤ s.length
  | _, [], _ => Nat.zero_le _
  | [], _ :: _, h => by simp [startswith] at h
  | c :: s, q :: p, h => by
    simp only [startswith, Bool.and_eq_true] at h
    simpa using Nat.succ_le_succ (startswith_length_le s p h.2)

/-- Filtering out a key removes it from membership. -/
theorem contains_filter_ne (l : List Nat) (u : Nat) :
    (l.filter (fun x => x != u)).contains u = false := by
  simp [List.mem_filter]

/-! ## Claim theorems -/

/-- C6: the admin identity passes `check_access` in every store state and at
every time, regardless of what (if any) user row is stored for it. -/
theorem admin_always_authorized (cfg : Config) (db : Store) (now : Nat) :
    check_access cfg db now cfg.ADMIN_ID = true := by
  simp [check_access]

/-- C4: for a non-admin user, authorization holds iff a stored user row
exists with `access_until` strictly greater than `now`; immediately after
`save_user_access` with a positive duration `d` the user is authorized (the
stored `access_until` is exactly `now + d`, as `get_user` then returns the
row with that value); and at any time at least `now + d` the user is no
longer authorized. -/
theorem access_grant_and_expiry (cfg : Config) (db : Store) (now : Nat) (user_id : Nat)
    (username : PyStr) (d : Nat) (hadmin : user_id ≠ cfg.ADMIN_ID) (hd : 0 < d) :
    (check_access cfg db now user_id = true ↔
      ∃ u, get_user db user_id = some u ∧ now < u.access_until) ∧
    get_user (save_user_access db now user_id username d) user_id =
      some { id := user_id, username := username, access_until := now + d } ∧
    check_access cfg (save_user_access db now user_id username d) now user_id = true ∧
    (∀ later, now + d ≤ later →
      check_access cfg (save_user_access db now user_id username d) later user_id = false) := by
  have hne : (user_id == cfg.ADMIN_ID) = false := by simp [hadmin]
  have hget : ∀ s, get_user (save_user_access db s user_id username d) user_id =
      some { id := user_id, username := username, access_until := s + d } := by
    intro s
    simp [get_user, save_user_access]
  refine ⟨?_, hget now, ?_, ?_⟩
  · simp only [check_access, hne, Bool.false_eq_true, if_false, check_user_access]
    cases hg : get_user db user_id with
    | none => simp
    | some u => simp [hg]
  · simp [check_access, hne, check_user_access, hget]
    omega
  · intro later hlater
    simp [check_access, hne, check_user_access, hget]
    omega

/-- C4 witness: granting user 2 five seconds of access at time 50 in the
empty store makes the user authorized at time 50 and unauthorized from
time 55 on. -/
theorem access_grant_and_expiry_witness :
    (check_access exCfg emptyStore 50 2 = true ↔
      ∃ u, get_user emptyStore 2 = some u ∧ 50 < u.access_until) ∧
    get_user (save_user_access emptyStore 50 2 (py "u") 5) 2 =
      some { id := 2, username := py "u", access_until := 50 + 5 } ∧
    check_access exCfg (save_user_access emptyStore 50 2 (py "u") 5) 50 2 = true ∧
    (∀ later, 50 + 5 ≤ later →
      check_access exCfg (save_user_access emptyStore 50 2 (py "u") 5) later 2 = false) :=
  access_grant_and_expiry exCfg emptyStore 50 2 (py "u") 5 (by decide) (by decide)

/-- C2: evaluation at the failing input.  The source prepends `https://` to
`a.b` before the length test, so `is_valid_url "a.b"` returns `True`; the
spec (and the accompanying test `test_url_validation.py`, case
`("a.b", False, "Too short URL - still invalid")`) expects `False`. -/
theorem is_valid_url_accepts_a_dot_b : is_valid_url (py "a.b") = true := by decide

/-- C9: every string is accepted by `is_valid_url`.  After normalization the
URL has length at least 7 (a string starting with `http://` has at least its
7 characters; one starting with `https://` at least 8; anything else
receives the 8-character prefix), so the under-5 rejection branch is
unreachable. -/
theorem is_valid_url_always_true (url : PyStr) : is_valid_url url = true := by
  unfold is_valid_url
  cases hc : startswith url (py "http://") || startswith url (py "https://") with
  | true =>
    rcases (by simpa using hc :
        startswith url (py "http://") = true ∨ startswith url (py "https://") = true) with h | h
    · have h7 := startswith_length_le url (py "http://") h
      have e7 : (py "http://").length = 7 := by decide
      have hlen : ¬ url.length < 5 := by omega
      simp [hc, hlen]
    · have h8 := startswith_length_le url (py "https://") h
      have e8 : (py "https://").length = 8 := by decide
      have hlen : ¬ url.length < 5 := by omega
      simp [hc, hlen]
  | false =>
    have e8 : (py "https://").length = 8 := by decide
    have hlen : ¬ (py "https://" ++ url).length < 5 := by
      rw [List.length_append]; omega
    simp [hc, hlen]
    omega

/-- C1: evaluation at the failing input.  With admin user 1 confirming the
deletion of category 1 (which owns one file-kind and one link-kind video,
N = 2), the category row is removed and file deletion is attempted exactly
for the file-kind video (its video file and thumbnail; the link-kind video
produces no attempt), but both dependent video rows are still in the videos
table afterwards: the fresh connection used by `delete_category` never
enables `PRAGMA foreign_keys`, so the `ON DELETE CASCADE` clause is not
enforced, contradicting both the claim and the source's own comment that
the cascade will delete the videos from the database. -/
theorem confirm_delete_leaves_video_rows :
    check_access exCfg exBot.db exBot.now 1 = true ∧
    exStore.videos.length = 2 ∧
    (on_confirm_delete exCfg exBot 1 1).1.db.categories = [] ∧
    (on_confirm_delete exCfg exBot 1 1).1.db.videos = exStore.videos ∧
    (on_confirm_delete exCfg exBot 1 1).1.removeCalls =
      [py "DATA/videos/a.mp4", py "DATA/thumbnails/a.mp4.jpg"] := by decide

/-- C3 counterexample: the non-admin user 2 has no stored access record
(`check_access` is false), yet their free-text message creates a category
row: the `on_message` handlers never re-check authorization, so an expired
user holding a stale conversation state can still mutate the store. -/
theorem expired_user_message_adds_category :
    check_access exCfg exStaleBot.db exStaleBot.now 2 = false ∧
    exStaleBot.db.categories = [] ∧
    (handleMessage exCfg exStaleBot exMsg (py "f.mp4")).1.db.categories =
      [{ id := 1, name := py "Movies" }] := by decide

/-- C3 (amended): every button-click entry point re-checks authorization:
a callback event from a non-admin user whose stored access (if any) has
expired leaves the store unchanged and only tells the user to restart the
authentication flow with /start.  (Free-text message handlers perform no
such re-check — see the counterexample.) -/
theorem callback_rejects_expired_users (cfg : Config) (st : BotState) (user_id : Nat)
    (ev : CallbackEvent) (hadmin : user_id ≠ cfg.ADMIN_ID)
    (hexp : ∀ u, get_user st.db user_id = some u → u.access_until ≤ st.now) :
    (handleCallback cfg st user_id ev).1.db = st.db ∧
    (handleCallback cfg st user_id ev).2 = [accessExpiredMsg] := by
  have hne : (user_id == cfg.ADMIN_ID) = false := by simp [hadmin]
  have hcua : check_user_access st.db st.now user_id = false := by
    unfold check_user_access
    cases hget : get_user st.db user_id with
    | none => rfl
    | some u =>
      have := hexp u hget
      simp [Nat.not_lt.mpr this]
  have hca : check_access cfg st.db st.now user_id = false := by
    unfold check_access
    simp [hne, hcua]
  cases ev <;>
    simp [handleCallback, on_manage_categories, on_category_add, on_category_delete,
      on_delete_category_selected, on_confirm_delete, on_back_to_categories,
      on_back_to_main, on_manage_videos, on_video_add, on_video_delete,
      on_delete_video_category_selected, on_delete_video_selected,
      on_confirm_delete_video, on_back_to_videos, on_category_selected,
      on_categories_menu, on_browse_category, on_play_video, hca]

/-- C3 witness: the expired user 2 clicking the delete-confirmation button
for category 1 leaves the store unchanged and is told to restart. -/
theorem callback_rejects_expired_users_witness :
    (handleCallback exCfg exStaleBot 2 (CallbackEvent.confirm_delete 1)).1.db =
      exStaleBot.db ∧
    (handleCallback exCfg exStaleBot 2 (CallbackEvent.confirm_delete 1)).2 =
      [accessExpiredMsg] :=
  callback_rejects_expired_users exCfg exStaleBot 2 (CallbackEvent.confirm_delete 1)
    (by decide) (fun u hu => by simp [exStaleBot, emptyStore, get_user] at hu)

/-- C8 counterexample: in the awaiting-password state, user 2 submits `/x`,
which differs from the configured password `secret`: the state is unchanged
(as the claim says) but no message at all is produced — the handler ignores
every text starting with `/` before the password comparison — whereas the
claim requires an error message. -/
theorem wrong_password_command_gets_no_reply :
    (py "/x") ≠ exCfg.ACCESS_PASSWORD ∧
    exAuthBot.authStates.contains 2 = true ∧
    message_handler exCfg exAuthBot 2 (py "u") (py "/x") = (exAuthBot, []) := by decide

/-- C8 (amended): for a non-admin user in the awaiting-password state
submitting a message that does not start with `/`: if the message differs
from the configured password, the whole state (store and conversation
states) is unchanged and exactly the error reply is produced; if it equals
the password, a user row with the default `ACCESS_TIMEOUT` expiry is
written and the awaiting-password state is cleared. -/
theorem password_check_non_command (cfg : Config) (st : BotState) (user_id : Nat)
    (username : PyStr) (text : PyStr) (hadmin : user_id ≠ cfg.ADMIN_ID)
    (hwait : st.authStates.contains user_id = true)
    (hslash : startswith text (py "/") = false) :
    (text ≠ cfg.ACCESS_PASSWORD →
      message_handler cfg st user_id username text =
        (st, [py "Incorrect password. Please try again or contact the administrator."])) ∧
    (text = cfg.ACCESS_PASSWORD →
      get_user (message_handler cfg st user_id username text).1.db user_id =
        some { id := user_id, username := username,
               access_until := st.now + cfg.ACCESS_TIMEOUT } ∧
      (message_handler cfg st user_id username text).1.authStates.contains user_id =
        false) := by
  have hne : (user_id == cfg.ADMIN_ID) = false := by simp [hadmin]
  have hmem : user_id ∈ st.authStates := by simpa using hwait
  constructor
  · intro hneq
    have ht : (text == cfg.ACCESS_PASSWORD) = false := by simp [hneq]
    simp [message_handler, hslash, hne, hmem, ht]
  · intro heq
    have ht : (text == cfg.ACCESS_PASSWORD) = true := by simp [heq]
    simp [message_handler, hslash, hne, hmem, ht, get_user, save_user_access,
      List.find?, List.mem_filter]

/-- C8 witness: user 2 in the awaiting-password state submitting the exact
password `secret` is granted the default duration and leaves the
awaiting-password state; the mismatch branch is instantiated vacuously. -/
theorem password_check_non_command_witness :
    ((py "secret") ≠ exCfg.ACCESS_PASSWORD →
      message_handler exCfg exAuthBot 2 (py "u") (py "secret") =
        (exAuthBot,
          [py "Incorrect password. Please try again or contact the administrator."])) ∧
    ((py "secret") = exCfg.ACCESS_PASSWORD →
      get_user (message_handler exCfg exAuthBot 2 (py "u") (py "secret")).1.db 2 =
        some { id := 2, username := py "u",
               access_until := exAuthBot.now + exCfg.ACCESS_TIMEOUT } ∧
      (message_handler exCfg exAuthBot 2 (py "u") (py "secret")).1.authStates.contains 2 =
        false) :=
  password_check_non_command exCfg exAuthBot 2 (py "u") (py "secret")
    (by decide) (by decide) (by decide)

/-- C10: when the configured password itself starts with `/`, the password
handler never changes any state for a non-admin user, whatever text is
submitted: a message starting with `/` (in particular an exact password
match) is ignored before the comparison, and any other text cannot equal
the password, so no access is ever granted through this handler. -/
theorem slash_password_never_grants (cfg : Config) (st : BotState) (user_id : Nat)
    (hpw : startswith cfg.ACCESS_PASSWORD (py "/") = true)
    (hadmin : user_id ≠ cfg.ADMIN_ID) :
    ∀ username text, (message_handler cfg st user_id username text).1 = st := by
  intro username text
  have hne : (user_id == cfg.ADMIN_ID) = false := by simp [hadmin]
  unfold message_handler
  cases hs : startswith text (py "/") with
  | true => simp [hs]
  | false =>
    have ht : (text == cfg.ACCESS_PASSWORD) = false := by
      cases hb : text == cfg.ACCESS_PASSWORD with
      | false => rfl
      | true =>
        have : text = cfg.ACCESS_PASSWORD := by simpa using hb
        rw [this, hpw] at hs
        exact absurd hs (by simp)
    simp only [hs, hne, Bool.or_self, Bool.false_eq_true, if_false]
    split
    · simp [ht]
    · rfl

/-- C10 witness: with the password `/secret`, user 2 in the
awaiting-password state submitting exactly `/secret` changes nothing. -/
theorem slash_password_never_grants_witness :
    (message_handler exSlashCfg exAuthBot 2 (py "u") (py "/secret")).1 = exAuthBot :=
  slash_password_never_grants exSlashCfg exAuthBot 2 (by decide) (by decide)
    (py "u") (py "/secret")

/-- C5: when an ingested attachment has a video MIME type and its download
succeeds, `save_video_file` succeeds with the stored path present and the
thumbnail path equal to whatever thumbnail generation produced — in
particular, for a downloaded video with zero frames (thumbnail generation
fails) it still returns success with the stored path present and the
thumbnail path absent; thumbnail failure never fails the ingestion. -/
theorem save_video_file_thumbnail_nonfatal (ev : MessageEvent) (fn : PyStr)
    (media : MediaEvt) (document : Document) (vf : VideoFile)
    (hm : ev.media = some media) (hd : media.document = some document)
    (hmime : startswith document.mime_type (py "video/") = true)
    (hdl : media.downloaded = some vf) :
    save_video_file ev fn =
      some (VIDEO_DIR ++ py "/" ++ fn, (generate_thumbnail vf fn).map Thumbnail.path) ∧
    (vf.total_frames = 0 →
      save_video_file ev fn = some (VIDEO_DIR ++ py "/" ++ fn, none)) := by
  constructor
  · simp [save_video_file, hm, hd, hmime, hdl]
  · intro h0
    cases hop : vf.isOpened <;>
      simp [save_video_file, hm, hd, hmime, hdl, generate_thumbnail, h0, hop]

/-- C5 witness: ingesting the zero-frame upload `exUploadEv` stores the
video under `DATA/videos/x.mp4` and returns an absent thumbnail path. -/
theorem save_video_file_thumbnail_nonfatal_witness :
    save_video_file exUploadEv (py "x.mp4") =
      some (VIDEO_DIR ++ py "/" ++ py "x.mp4",
        (generate_thumbnail exEmptyVf (py "x.mp4")).map Thumbnail.path) ∧
    (exEmptyVf.total_frames = 0 →
      save_video_file exUploadEv (py "x.mp4") =
        some (VIDEO_DIR ++ py "/" ++ py "x.mp4", none)) :=
  save_video_file_thumbnail_nonfatal exUploadEv (py "x.mp4") exUploadMedia exMp4Doc
    exEmptyVf rfl rfl (by decide) rfl

/-- C7: thumbnail generation on a zero-frame video fails; on an opened video
with `T > 0` frames whose middle frame `T / 2` decodes to an image of
positive width, it produces a thumbnail named after the stored video file
name under the thumbnail directory, resized by the source's aspect-ratio
formula so that the longer of the two output dimensions is exactly 320. -/
theorem generate_thumbnail_middle_frame (vf : VideoFile) (b : PyStr) (image : Frame)
    (hop : vf.isOpened = true) (hT : 0 < vf.total_frames)
    (hread : vf.readFrame (vf.total_frames / 2) = some image)
    (hw : 0 < image.width) :
    (∃ t, generate_thumbnail vf b = some t ∧
      t.path = THUMBNAIL_DIR ++ py "/" ++ b ++ py ".jpg" ∧
      (if image.width < image.height then
        t.height = 320 ∧ t.width = 320 * image.width / image.height
       else t.height = 320 * image.height / image.width ∧ t.width = 320) ∧
      max t.height t.width = 320) ∧
    (∀ vf0 : VideoFile, vf0.total_frames = 0 → generate_thumbnail vf0 b = none) := by
  have hT' : vf.total_frames ≠ 0 := Nat.pos_iff_ne_zero.mp hT
  constructor
  · by_cases hgt : image.width < image.height
    · have hle : 320 * image.width / image.height ≤ 320 :=
        Nat.div_le_of_le_mul (by omega)
      refine ⟨⟨THUMBNAIL_DIR ++ py "/" ++ b ++ py ".jpg", 320,
        320 * image.width / image.height⟩, ?_, rfl, ?_, ?_⟩
      · simp [generate_thumbnail, hop, hT', hread, hgt]
      · simp [hgt]
      · simpa using Nat.max_eq_left hle
    · have hwne : (image.width == 0) = false := by
        simp [Nat.pos_iff_ne_zero.mp hw]
      have hle : 320 * image.height / image.width ≤ 320 :=
        Nat.div_le_of_le_mul (by omega)
      refine ⟨⟨THUMBNAIL_DIR ++ py "/" ++ b ++ py ".jpg",
        320 * image.height / image.width, 320⟩, ?_, rfl, ?_, ?_⟩
      · simp [generate_thumbnail, hop, hT', hread, hgt, hwne]
      · simp [hgt]
      · simpa using Nat.max_eq_right hle
  · intro vf0 h0
    cases hop0 : vf0.isOpened <;> simp [generate_thumbnail, h0, hop0]

/-- C7 witness: the 11-frame video `exVf` whose frame 5 is 640 wide by 240
high yields the thumbnail `DATA/thumbnails/a.mp4.jpg` resized to 320 by
120 (longer dimension exactly 320); zero-frame videos yield none. -/
theorem generate_thumbnail_middle_frame_witness :
    (∃ t, generate_thumbnail exVf (py "a.mp4") = some t ∧
      t.path = THUMBNAIL_DIR ++ py "/" ++ py "a.mp4" ++ py ".jpg" ∧
      (if exFrame.width < exFrame.height then
        t.height = 320 ∧ t.width = 320 * exFrame.width / exFrame.height
       else t.height = 320 * exFrame.height / exFrame.width ∧ t.width = 320) ∧
      max t.height t.width = 320) ∧
    (∀ vf0 : VideoFile, vf0.total_frames = 0 →
      generate_thumbnail vf0 (py "a.mp4") = none) :=
  generate_thumbnail_middle_frame exVf (py "a.mp4") exFrame rfl (by decide)
    (by decide) (by decide)
